import Mathlib

/-!
Shallow embedding of the Time Bank service (`src/backend/main.py`).

The program stores three SQLite tables (`users`, `services`, `transactions`),
each with an `INTEGER PRIMARY KEY AUTOINCREMENT` id column, and exposes CRUD
handlers plus the core transfer handler `create_transaction`.  We model the
database as lists of rows together with the next auto-increment id for each
table, and each HTTP handler as a function from the database state (plus the
request payload) to a result and the post-call database state.  A handler that
raises `HTTPException` before `conn.commit()` leaves the database unchanged,
so the error branches return the input state.
-/

namespace TimeBank

/-- A row of the `users` table: id, name, minutes balance. -/
structure User where
  id : Int
  name : String
  minutes_balance : Int
deriving Repr, DecidableEq

/-- A row of the `services` table. -/
structure Service where
  id : Int
  title : String
  descr : Option String
  provider_user_id : Int
  duration_minutes : Int
deriving Repr, DecidableEq

/-- A row of the `transactions` table. -/
structure Transaction where
  id : Int
  provider_user_id : Int
  recipient_user_id : Int
  minutes : Int
  descr : Option String
deriving Repr, DecidableEq

/-- The transaction request body (the `Transaction` pydantic model without
the assigned id): `{provider_user_id, recipient_user_id, minutes, description?}`. -/
structure TxRequest where
  provider_user_id : Int
  recipient_user_id : Int
  minutes : Int
  descr : Option String
deriving Repr, DecidableEq

/-- An `HTTPException`: status code and detail string. -/
structure HttpError where
  status : Nat
  detail : String
deriving Repr, DecidableEq

/-- The whole SQLite database: the three tables plus, for each table,
the next value of its `AUTOINCREMENT` primary key. -/
structure DB where
  users : List User
  services : List Service
  transactions : List Transaction
  nextUserId : Int
  nextServiceId : Int
  nextTxId : Int
deriving Repr, DecidableEq

/-- `SELECT * FROM users WHERE id=?` followed by `fetchone()`:
the first row whose id matches, if any. -/
def findUser (db : DB) (uid : Int) : Option User :=
  db.users.find? (fun u => u.id == uid)

/-- The effect of `UPDATE users SET minutes_balance = minutes_balance + ?
WHERE id=?` on one row: add `m` when the id matches, else leave the row. -/
def creditFn (uid : Int) (m : Int) (u : User) : User :=
  if u.id == uid then { u with minutes_balance := u.minutes_balance + m } else u

/-- The effect of `UPDATE users SET minutes_balance = minutes_balance - ?
WHERE id=?` on one row: subtract `m` when the id matches, else leave the row. -/
def debitFn (uid : Int) (m : Int) (u : User) : User :=
  if u.id == uid then { u with minutes_balance := u.minutes_balance - m } else u

/-- `UPDATE users SET minutes_balance = minutes_balance + ? WHERE id=?`:
adds `m` to the balance of every row whose id is `uid`. -/
def creditRows (users : List User) (uid : Int) (m : Int) : List User :=
  users.map (creditFn uid m)

/-- `UPDATE users SET minutes_balance = minutes_balance - ? WHERE id=?`:
subtracts `m` from the balance of every row whose id is `uid`. -/
def debitRows (users : List User) (uid : Int) (m : Int) : List User :=
  users.map (debitFn uid m)

/-- The error raised when provider or recipient lookup fails
(`HTTPException(status_code=404, detail="Invalid provider or recipient")`). -/
def invalidParticipantsError : HttpError :=
  { status := 404, detail := "Invalid provider or recipient" }

/-- The error raised when the recipient cannot pay
(`HTTPException(status_code=400, detail="Recipient does not have enough minutes to pay")`). -/
def insufficientFundsError : HttpError :=
  { status := 400, detail := "Recipient does not have enough minutes to pay" }

/-- The row inserted by `INSERT INTO transactions ...` on a successful
transfer, with the id assigned by `AUTOINCREMENT` (`cur.lastrowid`). -/
def transferRecord (db : DB) (tx : TxRequest) : Transaction :=
  { id := db.nextTxId
    provider_user_id := tx.provider_user_id
    recipient_user_id := tx.recipient_user_id
    minutes := tx.minutes
    descr := tx.descr }

/-- The database state committed by a successful transfer: the two balance
updates, the appended transaction row, and the bumped auto-increment id. -/
def applyTransfer (db : DB) (tx : TxRequest) : DB :=
  { db with
      users := debitRows (creditRows db.users tx.provider_user_id tx.minutes)
        tx.recipient_user_id tx.minutes
      transactions := db.transactions ++ [transferRecord db tx]
      nextTxId := db.nextTxId + 1 }

/-- `POST /transactions` (`create_transaction` in `main.py`): fetch provider
and recipient rows; 404 if either is missing; 400 if the recipient balance is
strictly below `minutes`; otherwise credit the provider, debit the recipient,
insert the transaction row and commit, returning the row with its new id.
The second component is the database state after the call; on an error the
commit never happens, so the state is unchanged. -/
def create_transaction (db : DB) (tx : TxRequest) :
    Except HttpError Transaction × DB :=
  match findUser db tx.provider_user_id, findUser db tx.recipient_user_id with
  | some _, some recipient =>
      if recipient.minutes_balance < tx.minutes then
        (Except.error insufficientFundsError, db)
      else
        (Except.ok (transferRecord db tx), applyTransfer db tx)
  | _, _ => (Except.error invalidParticipantsError, db)

/-- `POST /users` (`create_user`): insert `(name, minutes_balance)`, return
the user with the assigned id. -/
def create_user (db : DB) (name : String) (bal : Int) : User × DB :=
  let u : User := { id := db.nextUserId, name := name, minutes_balance := bal }
  (u, { db with users := db.users ++ [u], nextUserId := db.nextUserId + 1 })

/-- `GET /users/{user_id}` (`get_user`): 404 when the id is absent. -/
def get_user (db : DB) (uid : Int) : Except HttpError User :=
  match findUser db uid with
  | some u => Except.ok u
  | none => Except.error { status := 404, detail := "User not found" }

/-- `PUT /users/{user_id}` (`update_user`): `UPDATE users SET name=?,
minutes_balance=? WHERE id=?`, then return the payload with `id` set. -/
def update_user (db : DB) (uid : Int) (name : String) (bal : Int) : User × DB :=
  ({ id := uid, name := name, minutes_balance := bal },
   { db with users := db.users.map (fun u =>
       if u.id == uid then { u with name := name, minutes_balance := bal } else u) })

/-- `DELETE /users/{user_id}` (`delete_user`): `DELETE FROM users WHERE id=?`. -/
def delete_user (db : DB) (uid : Int) : DB :=
  { db with users := db.users.filter (fun u => !(u.id == uid)) }

/-- `POST /services` (`create_service`). -/
def create_service (db : DB) (title : String) (descr : Option String)
    (pid : Int) (dur : Int) : Service × DB :=
  let s : Service := { id := db.nextServiceId, title := title, descr := descr,
                       provider_user_id := pid, duration_minutes := dur }
  (s, { db with services := db.services ++ [s], nextServiceId := db.nextServiceId + 1 })

/-- One HTTP request to the service: every handler defined in `main.py`. -/
inductive Op where
  | createUser (name : String) (bal : Int)
  | listUsers
  | getUser (uid : Int)
  | updateUser (uid : Int) (name : String) (bal : Int)
  | deleteUser (uid : Int)
  | createService (title : String) (descr : Option String) (pid : Int) (dur : Int)
  | listServices
  | createTx (tx : TxRequest)
deriving Repr, DecidableEq

/-- The database state after handling one request.  The read-only handlers
(`list_users`, `get_user`, `list_services`) never write, so they keep the
state; the others apply their handler. -/
def step (db : DB) : Op → DB
  | .createUser name bal => (create_user db name bal).2
  | .listUsers => db
  | .getUser _ => db
  | .updateUser uid name bal => (update_user db uid name bal).2
  | .deleteUser uid => delete_user db uid
  | .createService title descr pid dur => (create_service db title descr pid dur).2
  | .listServices => db
  | .createTx tx => (create_transaction db tx).2

/-- Sum of all minute balances in the users table. -/
def DB.totalBalance (db : DB) : Int :=
  (db.users.map User.minutes_balance).sum

/-! ### Helper lemmas -/

theorem creditFn_id (uid m : Int) (u : User) : (creditFn uid m u).id = u.id := by
  unfold creditFn; split <;> rfl

theorem debitFn_id (uid m : Int) (u : User) : (debitFn uid m u).id = u.id := by
  unfold debitFn; split <;> rfl

theorem find?_map_of_id_preserving (f : User → User) (hf : ∀ u, (f u).id = u.id)
    (l : List User) (y : Int) :
    (l.map f).find? (fun u => u.id == y) = (l.find? (fun u => u.id == y)).map f := by
  induction l with
  | nil => rfl
  | cons a l ih =>
    simp only [List.map_cons, List.find?_cons, hf]
    by_cases h : (a.id == y) = true
    · simp [h]
    · simp [h, ih]

theorem findUser_applyTransfer (db : DB) (tx : TxRequest) (y : Int) :
    findUser (applyTransfer db tx) y =
      (findUser db y).map (fun u =>
        debitFn tx.recipient_user_id tx.minutes
          (creditFn tx.provider_user_id tx.minutes u)) := by
  show (debitRows (creditRows db.users tx.provider_user_id tx.minutes)
      tx.recipient_user_id tx.minutes).find? (fun u => u.id == y) = _
  rw [debitRows, find?_map_of_id_preserving _ (debitFn_id _ _),
    creditRows, find?_map_of_id_preserving _ (creditFn_id _ _), Option.map_map]
  rfl

theorem findUser_id (db : DB) (y : Int) (u : User) (h : findUser db y = some u) :
    u.id = y := by
  have := List.find?_some h
  simpa using this

theorem create_transaction_ok (db : DB) (tx : TxRequest) (p r : User)
    (hp : findUser db tx.provider_user_id = some p)
    (hr : findUser db tx.recipient_user_id = some r)
    (hm : ¬ r.minutes_balance < tx.minutes) :
    create_transaction db tx = (Except.ok (transferRecord db tx), applyTransfer db tx) := by
  unfold create_transaction
  rw [hp, hr]
  simp [hm]

theorem create_transaction_insufficient (db : DB) (tx : TxRequest) (p r : User)
    (hp : findUser db tx.provider_user_id = some p)
    (hr : findUser db tx.recipient_user_id = some r)
    (hm : r.minutes_balance < tx.minutes) :
    create_transaction db tx = (Except.error insufficientFundsError, db) := by
  unfold create_transaction
  rw [hp, hr]
  simp [hm]

theorem create_transaction_not_found (db : DB) (tx : TxRequest)
    (h : findUser db tx.provider_user_id = none ∨ findUser db tx.recipient_user_id = none) :
    create_transaction db tx = (Except.error invalidParticipantsError, db) := by
  unfold create_transaction
  rcases h with h | h
  · rw [h]
  · rw [h]
    rcases findUser db tx.provider_user_id with _ | u <;> rfl

/-- After a successful transfer with distinct participant ids, the provider
row read back has its balance increased by `minutes`. -/
theorem findUser_applyTransfer_provider (db : DB) (tx : TxRequest) (p : User)
    (hp : findUser db tx.provider_user_id = some p)
    (hne : tx.provider_user_id ≠ tx.recipient_user_id) :
    findUser (applyTransfer db tx) tx.provider_user_id =
      some { p with minutes_balance := p.minutes_balance + tx.minutes } := by
  have hid : p.id = tx.provider_user_id := findUser_id db _ p hp
  have h1 : debitFn tx.recipient_user_id tx.minutes
      (creditFn tx.provider_user_id tx.minutes p) =
      { p with minutes_balance := p.minutes_balance + tx.minutes } := by
    unfold creditFn
    rw [if_pos (by simp [hid])]
    unfold debitFn
    rw [if_neg (by simp [hid, hne])]
  rw [findUser_applyTransfer, hp, ← h1]
  rfl

/-- After a successful transfer with distinct participant ids, the recipient
row read back has its balance decreased by `minutes`. -/
theorem findUser_applyTransfer_recipient (db : DB) (tx : TxRequest) (r : User)
    (hr : findUser db tx.recipient_user_id = some r)
    (hne : tx.provider_user_id ≠ tx.recipient_user_id) :
    findUser (applyTransfer db tx) tx.recipient_user_id =
      some { r with minutes_balance := r.minutes_balance - tx.minutes } := by
  have hid : r.id = tx.recipient_user_id := findUser_id db _ r hr
  have h1 : debitFn tx.recipient_user_id tx.minutes
      (creditFn tx.provider_user_id tx.minutes r) =
      { r with minutes_balance := r.minutes_balance - tx.minutes } := by
    unfold creditFn
    rw [if_neg (by simp [hid]; exact fun h => hne h.symm)]
    unfold debitFn
    rw [if_pos (by simp [hid])]
  rw [findUser_applyTransfer, hr, ← h1]
  rfl

/-- After a successful self-transfer, the credited-then-debited row read back
is the original row (the increment and decrement cancel). -/
theorem findUser_applyTransfer_self (db : DB) (tx : TxRequest) (u : User)
    (hu : findUser db tx.provider_user_id = some u)
    (heq : tx.provider_user_id = tx.recipient_user_id) :
    findUser (applyTransfer db tx) tx.provider_user_id = some u := by
  have hid : u.id = tx.provider_user_id := findUser_id db _ u hu
  have h1 : debitFn tx.recipient_user_id tx.minutes
      (creditFn tx.provider_user_id tx.minutes u) = u := by
    unfold creditFn
    rw [if_pos (by simp [hid])]
    unfold debitFn
    rw [if_pos (by simp [hid, ← heq])]
    have hb : u.minutes_balance + tx.minutes - tx.minutes = u.minutes_balance := by omega
    simp [hb]
  rw [findUser_applyTransfer, hu]
  exact congrArg some h1

theorem sum_map_creditRows (l : List User) (x m : Int) :
    ((creditRows l x m).map User.minutes_balance).sum =
      (l.map User.minutes_balance).sum + m * (l.countP (fun u => u.id == x) : Int) := by
  induction l with
  | nil => simp [creditRows]
  | cons a l ih =>
    rw [show creditRows (a :: l) x m = creditFn x m a :: creditRows l x m from rfl,
      List.map_cons, List.sum_cons, ih, List.map_cons, List.sum_cons, List.countP_cons]
    unfold creditFn
    by_cases h : (a.id == x) = true
    · rw [if_pos h, if_pos h]
      push_cast
      ring
    · rw [if_neg h, if_neg h]
      push_cast
      ring

theorem sum_map_debitRows (l : List User) (x m : Int) :
    ((debitRows l x m).map User.minutes_balance).sum =
      (l.map User.minutes_balance).sum - m * (l.countP (fun u => u.id == x) : Int) := by
  induction l with
  | nil => simp [debitRows]
  | cons a l ih =>
    rw [show debitRows (a :: l) x m = debitFn x m a :: debitRows l x m from rfl,
      List.map_cons, List.sum_cons, ih, List.map_cons, List.sum_cons, List.countP_cons]
    unfold debitFn
    by_cases h : (a.id == x) = true
    · rw [if_pos h, if_pos h]
      push_cast
      ring
    · rw [if_neg h, if_neg h]
      push_cast
      ring

theorem countP_creditRows (l : List User) (x y m : Int) :
    (creditRows l x m).countP (fun u => u.id == y) = l.countP (fun u => u.id == y) := by
  induction l with
  | nil => rfl
  | cons a l ih =>
    simp only [show creditRows (a :: l) x m = creditFn x m a :: creditRows l x m from rfl,
      List.countP_cons, creditFn_id, ih]

theorem countP_eq_one_of_found (l : List User) (y : Int)
    (hwf : (l.map User.id).Nodup)
    (h : (l.find? (fun u => u.id == y)).isSome = true) :
    l.countP (fun u => u.id == y) = 1 := by
  induction l with
  | nil => simp [List.find?] at h
  | cons a l ih =>
    rw [List.map_cons, List.nodup_cons] at hwf
    by_cases ha : (a.id == y) = true
    · have hay : a.id = y := by simpa using ha
      have h0 : l.countP (fun u => u.id == y) = 0 := by
        rw [List.countP_eq_zero]
        intro u hu hupred
        have huy : u.id = y := by simpa using hupred
        exact hwf.1 (by rw [hay, ← huy]; exact List.mem_map_of_mem _ hu)
      rw [List.countP_cons, if_pos ha, h0]
    · rw [List.find?_cons] at h
      simp only [ha] at h
      rw [List.countP_cons, if_neg ha, ih hwf.2 (by simpa using h)]

theorem totalBalance_applyTransfer (db : DB) (tx : TxRequest)
    (hwf : (db.users.map User.id).Nodup)
    (hp : (findUser db tx.provider_user_id).isSome = true)
    (hr : (findUser db tx.recipient_user_id).isSome = true) :
    (applyTransfer db tx).totalBalance = db.totalBalance := by
  show ((debitRows (creditRows db.users tx.provider_user_id tx.minutes)
      tx.recipient_user_id tx.minutes).map User.minutes_balance).sum =
    (db.users.map User.minutes_balance).sum
  rw [sum_map_debitRows, countP_creditRows, sum_map_creditRows,
    countP_eq_one_of_found _ _ hwf hp, countP_eq_one_of_found _ _ hwf hr]
  push_cast
  ring

/-! ### Concrete databases used in witnesses and counterexamples -/

/-- The database of the spec scenario: Alice with 0 minutes, Bob with 100. -/
def dbAB : DB :=
  { users := [{ id := 1, name := "Alice", minutes_balance := 0 },
              { id := 2, name := "Bob", minutes_balance := 100 }]
    services := []
    transactions := []
    nextUserId := 3
    nextServiceId := 1
    nextTxId := 1 }

/-- Transfer request of the spec scenario: provider Alice, recipient Bob, 30 minutes. -/
def txAB : TxRequest :=
  { provider_user_id := 1, recipient_user_id := 2, minutes := 30, descr := none }

/-- Transfer request exceeding Bob's balance. -/
def txBig : TxRequest :=
  { provider_user_id := 1, recipient_user_id := 2, minutes := 200, descr := none }

/-- Transfer request naming a nonexistent provider account. -/
def txMissing : TxRequest :=
  { provider_user_id := 99, recipient_user_id := 2, minutes := 10, descr := none }

/-- Single-account database for the self-transfer cases. -/
def dbSelf : DB :=
  { users := [{ id := 1, name := "Alice", minutes_balance := 10 }]
    services := []
    transactions := []
    nextUserId := 2
    nextServiceId := 1
    nextTxId := 1 }

/-- Self-transfer request: provider and recipient are both account 1. -/
def txSelf : TxRequest :=
  { provider_user_id := 1, recipient_user_id := 1, minutes := 5, descr := none }

/-- Self-transfer request with negative minutes. -/
def txNeg : TxRequest :=
  { provider_user_id := 1, recipient_user_id := 1, minutes := -3, descr := none }

/-- Three-account database used for the frame-property witness. -/
def dbABC : DB :=
  { users := [{ id := 1, name := "Alice", minutes_balance := 0 },
              { id := 2, name := "Bob", minutes_balance := 100 },
              { id := 3, name := "Carol", minutes_balance := 7 }]
    services := [{ id := 1, title := "tutoring", descr := none,
                   provider_user_id := 3, duration_minutes := 60 }]
    transactions := []
    nextUserId := 4
    nextServiceId := 2
    nextTxId := 1 }

/-! ### Claims -/

/-- C1 counterexample: the claim quantifies over every pair of existing
accounts, including A = B.  A self-transfer on account 1 (balance 10,
minutes 5, so the funds check 5 ≤ 10 passes) succeeds and appends a record,
but afterwards account 1's balance is still 10, not a + m = 10 + 5:
the credit and the debit hit the same row. -/
theorem C1_counterexample :
    (create_transaction dbSelf txSelf).1 = Except.ok (transferRecord dbSelf txSelf) ∧
    findUser (create_transaction dbSelf txSelf).2 1 =
      some { id := 1, name := "Alice", minutes_balance := 10 } ∧
    (10 : Int) ≠ 10 + 5 := by
  refine ⟨rfl, by decide, by decide⟩

/-- C1 (amended: provider and recipient must be distinct accounts; the
provider = recipient case is settled separately by C8): for existing
accounts A ≠ B with recipient balance ≥ minutes, `create_transaction`
succeeds, A's balance becomes a + m, B's becomes b - m, exactly one new
transaction row referencing (A, B, m) is appended, and the returned record
is that row with the freshly assigned id `db.nextTxId`. -/
theorem C1_transfer_correct (db : DB) (tx : TxRequest) (A B : User)
    (hA : findUser db tx.provider_user_id = some A)
    (hB : findUser db tx.recipient_user_id = some B)
    (hne : tx.provider_user_id ≠ tx.recipient_user_id)
    (hm : tx.minutes ≤ B.minutes_balance) :
    create_transaction db tx = (Except.ok (transferRecord db tx), applyTransfer db tx) ∧
    findUser (applyTransfer db tx) tx.provider_user_id =
      some { A with minutes_balance := A.minutes_balance + tx.minutes } ∧
    findUser (applyTransfer db tx) tx.recipient_user_id =
      some { B with minutes_balance := B.minutes_balance - tx.minutes } ∧
    (applyTransfer db tx).transactions = db.transactions ++ [transferRecord db tx] ∧
    transferRecord db tx =
      { id := db.nextTxId, provider_user_id := tx.provider_user_id,
        recipient_user_id := tx.recipient_user_id, minutes := tx.minutes,
        descr := tx.descr } :=
  ⟨create_transaction_ok db tx A B hA hB (not_lt.mpr hm),
    findUser_applyTransfer_provider db tx A hA hne,
    findUser_applyTransfer_recipient db tx B hB hne, rfl, rfl⟩

/-- C1 witness: the spec scenario, Alice (balance 0) providing 30 minutes to
Bob (balance 100): Alice ends at 0 + 30. -/
theorem C1_transfer_correct_witness :
    findUser (applyTransfer dbAB txAB) txAB.provider_user_id =
      some { id := 1, name := "Alice", minutes_balance := 0 + 30 } :=
  (C1_transfer_correct dbAB txAB
    { id := 1, name := "Alice", minutes_balance := 0 }
    { id := 2, name := "Bob", minutes_balance := 100 }
    rfl rfl (by decide) (by decide)).2.1

/-- C2: when both participants exist, the call fails with the 400
insufficient-funds error exactly when the recipient's balance is strictly
below `minutes`; on that failure the database is unchanged, and when
balance ≥ minutes (equality included) the call succeeds. -/
theorem C2_insufficient_funds (db : DB) (tx : TxRequest) (p r : User)
    (hp : findUser db tx.provider_user_id = some p)
    (hr : findUser db tx.recipient_user_id = some r) :
    ((create_transaction db tx).1 = Except.error insufficientFundsError ↔
      r.minutes_balance < tx.minutes) ∧
    (r.minutes_balance < tx.minutes →
      create_transaction db tx = (Except.error insufficientFundsError, db)) ∧
    (tx.minutes ≤ r.minutes_balance →
      (create_transaction db tx).1 = Except.ok (transferRecord db tx)) := by
  by_cases h : r.minutes_balance < tx.minutes
  · rw [create_transaction_insufficient db tx p r hp hr h]
    exact ⟨by simp [h], fun _ => rfl, fun hle => absurd h (not_lt.mpr hle)⟩
  · rw [create_transaction_ok db tx p r hp hr h]
    exact ⟨by simp [h], fun hlt => absurd hlt h, fun _ => rfl⟩

/-- C2 witness: transferring 200 minutes from Bob (balance 100) fails with
the 400 error and leaves the database untouched. -/
theorem C2_insufficient_funds_witness :
    create_transaction dbAB txBig = (Except.error insufficientFundsError, dbAB) :=
  (C2_insufficient_funds dbAB txBig
    { id := 1, name := "Alice", minutes_balance := 0 }
    { id := 2, name := "Bob", minutes_balance := 100 }
    rfl rfl).2.1 (by decide)

/-- C3: when the provider id or the recipient id does not resolve to an
existing user row, the call fails with the 404 error and the database is
completely unchanged. -/
theorem C3_not_found_no_mutation (db : DB) (tx : TxRequest)
    (h : findUser db tx.provider_user_id = none ∨
      findUser db tx.recipient_user_id = none) :
    create_transaction db tx = (Except.error invalidParticipantsError, db) :=
  create_transaction_not_found db tx h

/-- C3 witness: a transfer from nonexistent account 99 fails with the 404
error and leaves the database untouched. -/
theorem C3_not_found_no_mutation_witness :
    create_transaction dbAB txMissing = (Except.error invalidParticipantsError, dbAB) :=
  C3_not_found_no_mutation dbAB txMissing (Or.inl rfl)

/-- C4: atomicity.  Every call either fails, in which case the whole
database state is exactly the input state (no partial mutation), or
succeeds, in which case both balance updates, the appended transaction row
and the untouched services table are all visible together in the returned
state. -/
theorem C4_atomic (db : DB) (tx : TxRequest) :
    (∃ e, create_transaction db tx = (Except.error e, db)) ∨
    (∃ t, create_transaction db tx = (Except.ok t, applyTransfer db tx) ∧
      (applyTransfer db tx).users =
        debitRows (creditRows db.users tx.provider_user_id tx.minutes)
          tx.recipient_user_id tx.minutes ∧
      (applyTransfer db tx).transactions = db.transactions ++ [t] ∧
      (applyTransfer db tx).services = db.services) := by
  cases hP : findUser db tx.provider_user_id with
  | none => exact Or.inl ⟨_, create_transaction_not_found db tx (Or.inl hP)⟩
  | some p =>
    cases hR : findUser db tx.recipient_user_id with
    | none => exact Or.inl ⟨_, create_transaction_not_found db tx (Or.inr hR)⟩
    | some r =>
      by_cases h : r.minutes_balance < tx.minutes
      · exact Or.inl ⟨_, create_transaction_insufficient db tx p r hP hR h⟩
      · exact Or.inr ⟨transferRecord db tx,
          create_transaction_ok db tx p r hP hR h, rfl, rfl, rfl⟩

/-- C5 counterexample: a repeated self-transfer satisfies the preconditions
of both calls (account 1 exists with balance 10 ≥ 5 before each call), both
calls succeed, yet the provider's balance afterwards is 10, not
10 + 2·5: the claim's balance clause fails when provider = recipient. -/
theorem C5_counterexample :
    (create_transaction dbSelf txSelf).1 = Except.ok (transferRecord dbSelf txSelf) ∧
    (create_transaction (create_transaction dbSelf txSelf).2 txSelf).1 =
      Except.ok (transferRecord (create_transaction dbSelf txSelf).2 txSelf) ∧
    findUser (create_transaction (create_transaction dbSelf txSelf).2 txSelf).2 1 =
      some { id := 1, name := "Alice", minutes_balance := 10 } ∧
    (10 : Int) ≠ 10 + 2 * 5 := by
  refine ⟨rfl, rfl, by decide, by decide⟩

/-- C5 (amended: provider and recipient must be distinct accounts): two
successive calls with identical arguments, each satisfying its
precondition, both succeed, append two rows with distinct ids, and apply
the balance effect twice: provider + 2·minutes, recipient - 2·minutes. -/
theorem C5_no_dedup (db : DB) (tx : TxRequest) (p r : User)
    (hp : findUser db tx.provider_user_id = some p)
    (hr : findUser db tx.recipient_user_id = some r)
    (hne : tx.provider_user_id ≠ tx.recipient_user_id)
    (hm1 : tx.minutes ≤ r.minutes_balance)
    (hm2 : tx.minutes ≤ r.minutes_balance - tx.minutes) :
    (create_transaction db tx).1 = Except.ok (transferRecord db tx) ∧
    (create_transaction (create_transaction db tx).2 tx).1 =
      Except.ok (transferRecord (create_transaction db tx).2 tx) ∧
    (transferRecord db tx).id ≠ (transferRecord (create_transaction db tx).2 tx).id ∧
    (create_transaction (create_transaction db tx).2 tx).2.transactions =
      db.transactions ++
        [transferRecord db tx, transferRecord (create_transaction db tx).2 tx] ∧
    findUser (create_transaction (create_transaction db tx).2 tx).2 tx.provider_user_id =
      some { p with minutes_balance := p.minutes_balance + 2 * tx.minutes } ∧
    findUser (create_transaction (create_transaction db tx).2 tx).2 tx.recipient_user_id =
      some { r with minutes_balance := r.minutes_balance - 2 * tx.minutes } := by
  have h1 : create_transaction db tx =
      (Except.ok (transferRecord db tx), applyTransfer db tx) :=
    create_transaction_ok db tx p r hp hr (not_lt.mpr hm1)
  have hp1 : findUser (applyTransfer db tx) tx.provider_user_id =
      some { p with minutes_balance := p.minutes_balance + tx.minutes } :=
    findUser_applyTransfer_provider db tx p hp hne
  have hr1 : findUser (applyTransfer db tx) tx.recipient_user_id =
      some { r with minutes_balance := r.minutes_balance - tx.minutes } :=
    findUser_applyTransfer_recipient db tx r hr hne
  have h2 : create_transaction (applyTransfer db tx) tx =
      (Except.ok (transferRecord (applyTransfer db tx) tx),
        applyTransfer (applyTransfer db tx) tx) :=
    create_transaction_ok (applyTransfer db tx) tx _ _ hp1 hr1 (not_lt.mpr hm2)
  refine ⟨?_, ?_, ?_, ?_, ?_, ?_⟩
  · rw [h1]
  · simp only [h1]
    rw [h2]
  · simp only [h1]
    simp [transferRecord, applyTransfer]
  · simp only [h1, h2]
    simp [applyTransfer]
  · simp only [h1, h2]
    rw [findUser_applyTransfer_provider (applyTransfer db tx) tx _ hp1 hne]
    simp only [Option.some.injEq, User.mk.injEq]
    exact ⟨trivial, trivial, by ring⟩
  · simp only [h1, h2]
    rw [findUser_applyTransfer_recipient (applyTransfer db tx) tx _ hr1 hne]
    simp only [Option.some.injEq, User.mk.injEq]
    exact ⟨trivial, trivial, by ring⟩

/-- C5 witness: Alice provides 30 minutes to Bob twice in a row (Bob starts
at 100 ≥ 30 and then 70 ≥ 30); Alice ends at 0 + 2·30 = 60. -/
theorem C5_no_dedup_witness :
    findUser (create_transaction (create_transaction dbAB txAB).2 txAB).2
        txAB.provider_user_id =
      some { id := 1, name := "Alice", minutes_balance := 0 + 2 * 30 } :=
  (C5_no_dedup dbAB txAB
    { id := 1, name := "Alice", minutes_balance := 0 }
    { id := 2, name := "Bob", minutes_balance := 100 }
    rfl rfl (by decide) (by decide) (by decide)).2.2.2.2.1

/-- C6: `create_transaction` validates only account existence and the
recipient funds check: any request with two existing participants and
recipient balance ≥ minutes succeeds, with no constraint that minutes is
positive and none that provider ≠ recipient. -/
theorem C6_no_extra_validation (db : DB) (tx : TxRequest) (p r : User)
    (hp : findUser db tx.provider_user_id = some p)
    (hr : findUser db tx.recipient_user_id = some r)
    (hm : tx.minutes ≤ r.minutes_balance) :
    (create_transaction db tx).1 = Except.ok (transferRecord db tx) := by
  rw [create_transaction_ok db tx p r hp hr (not_lt.mpr hm)]

/-- C6 witness: a self-transfer of -3 minutes (negative amount, provider =
recipient) succeeds. -/
theorem C6_no_extra_validation_witness :
    (create_transaction dbSelf txNeg).1 = Except.ok (transferRecord dbSelf txNeg) :=
  C6_no_extra_validation dbSelf txNeg
    { id := 1, name := "Alice", minutes_balance := 10 }
    { id := 1, name := "Alice", minutes_balance := 10 }
    rfl rfl (by decide)

/-- C7: the transaction log is append-only.  After any handler of the
service runs, the old transactions list is a prefix of the new one (so no
existing row is modified or deleted), and the appended suffix is nonempty
only for a successful `create_transaction`, in which case it is exactly the
one new transfer record. -/
theorem C7_append_only (db : DB) (op : Op) :
    ∃ tl, (step db op).transactions = db.transactions ++ tl ∧
      (tl = [] ∨ ∃ req, op = Op.createTx req ∧ tl = [transferRecord db req] ∧
        (create_transaction db req).1 = Except.ok (transferRecord db req)) := by
  cases op with
  | createUser name bal => exact ⟨[], (db.transactions.append_nil).symm, Or.inl rfl⟩
  | listUsers => exact ⟨[], (db.transactions.append_nil).symm, Or.inl rfl⟩
  | getUser uid => exact ⟨[], (db.transactions.append_nil).symm, Or.inl rfl⟩
  | updateUser uid name bal => exact ⟨[], (db.transactions.append_nil).symm, Or.inl rfl⟩
  | deleteUser uid => exact ⟨[], (db.transactions.append_nil).symm, Or.inl rfl⟩
  | createService title descr pid dur =>
    exact ⟨[], (db.transactions.append_nil).symm, Or.inl rfl⟩
  | listServices => exact ⟨[], (db.transactions.append_nil).symm, Or.inl rfl⟩
  | createTx tx =>
    cases hP : findUser db tx.provider_user_id with
    | none =>
      refine ⟨[], ?_, Or.inl rfl⟩
      simp [step, create_transaction_not_found db tx (Or.inl hP)]
    | some p =>
      cases hR : findUser db tx.recipient_user_id with
      | none =>
        refine ⟨[], ?_, Or.inl rfl⟩
        simp [step, create_transaction_not_found db tx (Or.inr hR)]
      | some r =>
        by_cases h : r.minutes_balance < tx.minutes
        · refine ⟨[], ?_, Or.inl rfl⟩
          simp [step, create_transaction_insufficient db tx p r hP hR h]
        · refine ⟨[transferRecord db tx], ?_, Or.inr ⟨tx, rfl, rfl, ?_⟩⟩
          · simp [step, create_transaction_ok db tx p r hP hR h, applyTransfer]
          · rw [create_transaction_ok db tx p r hP hR h]

/-- C8: a self-transfer on an existing account whose balance covers the
amount succeeds, leaves that account's row (id, name and balance) exactly
as it was, and appends one record naming the account as both provider and
recipient. -/
theorem C8_self_transfer (db : DB) (tx : TxRequest) (u : User)
    (heq : tx.provider_user_id = tx.recipient_user_id)
    (hu : findUser db tx.provider_user_id = some u)
    (hm : tx.minutes ≤ u.minutes_balance) :
    create_transaction db tx = (Except.ok (transferRecord db tx), applyTransfer db tx) ∧
    findUser (applyTransfer db tx) tx.provider_user_id = some u ∧
    (applyTransfer db tx).transactions = db.transactions ++ [transferRecord db tx] ∧
    (transferRecord db tx).provider_user_id = tx.provider_user_id ∧
    (transferRecord db tx).recipient_user_id = tx.recipient_user_id := by
  have hu2 : findUser db tx.recipient_user_id = some u := by
    rw [← heq]; exact hu
  exact ⟨create_transaction_ok db tx u u hu hu2 (not_lt.mpr hm),
    findUser_applyTransfer_self db tx u hu heq, rfl, rfl, rfl⟩

/-- C8 witness: the self-transfer of 5 minutes on account 1 (balance 10)
leaves the row exactly as it was. -/
theorem C8_self_transfer_witness :
    findUser (applyTransfer dbSelf txSelf) txSelf.provider_user_id =
      some { id := 1, name := "Alice", minutes_balance := 10 } :=
  (C8_self_transfer dbSelf txSelf
    { id := 1, name := "Alice", minutes_balance := 10 }
    rfl rfl (by decide)).2.1

/-- C9: with the users table satisfying its primary-key invariant (no two
rows share an id), every call, successful or failing, preserves the sum of
all minute balances. -/
theorem C9_conservation (db : DB) (tx : TxRequest)
    (hwf : (db.users.map User.id).Nodup) :
    (create_transaction db tx).2.totalBalance = db.totalBalance := by
  cases hP : findUser db tx.provider_user_id with
  | none => rw [create_transaction_not_found db tx (Or.inl hP)]
  | some p =>
    cases hR : findUser db tx.recipient_user_id with
    | none => rw [create_transaction_not_found db tx (Or.inr hR)]
    | some r =>
      by_cases h : r.minutes_balance < tx.minutes
      · rw [create_transaction_insufficient db tx p r hP hR h]
      · rw [create_transaction_ok db tx p r hP hR h]
        exact totalBalance_applyTransfer db tx hwf
          (by rw [hP]; rfl) (by rw [hR]; rfl)

/-- C9 witness: the spec scenario transfer preserves the total balance
0 + 100. -/
theorem C9_conservation_witness :
    (create_transaction dbAB txAB).2.totalBalance = dbAB.totalBalance :=
  C9_conservation dbAB txAB (by decide)

/-- C10: frame property.  A successful transfer leaves the services table
unchanged, keeps the users table the same length, and leaves every user row
whose id is neither the provider id nor the recipient id exactly as it was
(same position, same id, name and balance). -/
theorem C10_frame (db : DB) (tx : TxRequest) (t : Transaction)
    (h : (create_transaction db tx).1 = Except.ok t) :
    (create_transaction db tx).2.services = db.services ∧
    (create_transaction db tx).2.users.length = db.users.length ∧
    ∀ i (hi : i < db.users.length) (hj : i < (create_transaction db tx).2.users.length),
      (db.users.get ⟨i, hi⟩).id ≠ tx.provider_user_id →
      (db.users.get ⟨i, hi⟩).id ≠ tx.recipient_user_id →
      (create_transaction db tx).2.users.get ⟨i, hj⟩ = db.users.get ⟨i, hi⟩ := by
  have hok : create_transaction db tx =
      (Except.ok (transferRecord db tx), applyTransfer db tx) := by
    cases hP : findUser db tx.provider_user_id with
    | none => rw [create_transaction_not_found db tx (Or.inl hP)] at h; simp at h
    | some p =>
      cases hR : findUser db tx.recipient_user_id with
      | none => rw [create_transaction_not_found db tx (Or.inr hR)] at h; simp at h
      | some r =>
        by_cases hlt : r.minutes_balance < tx.minutes
        · rw [create_transaction_insufficient db tx p r hP hR hlt] at h; simp at h
        · exact create_transaction_ok db tx p r hP hR hlt
  have husers : (create_transaction db tx).2.users =
      debitRows (creditRows db.users tx.provider_user_id tx.minutes)
        tx.recipient_user_id tx.minutes := by
    rw [hok]
    rfl
  refine ⟨by rw [hok]; rfl, by simp [husers, debitRows, creditRows], ?_⟩
  intro i hi hj hip hir
  simp only [List.get_eq_getElem] at hip hir ⊢
  simp only [husers, debitRows, creditRows, List.getElem_map]
  unfold creditFn
  rw [if_neg (by simp [hip])]
  unfold debitFn
  rw [if_neg (by simp [hir])]

/-- C10 witness: in the three-account database, transferring 30 minutes
from Bob to Alice leaves Carol's row (index 2, id 3) untouched. -/
theorem C10_frame_witness :
    (create_transaction dbABC txAB).2.users.get ⟨2, by decide⟩ =
      dbABC.users.get ⟨2, by decide⟩ :=
  (C10_frame dbABC txAB (transferRecord dbABC txAB) rfl).2.2
    2 (by decide) (by decide) (by decide) (by decide)

end TimeBank
